import Mathlib

/-!
Shallow embedding of the render/annotation/persistence engine of
needyamin/pdf-reader (src/pdfReader.py), together with theorems settling
the frozen claims about it.  Coordinates are modelled as rationals
(exact arithmetic in place of Python floats), machine integers as Nat/Int,
fallible calls as Except/Option.
-/

namespace PdfReader

/-- Python exceptions that the embedded fragments can raise. -/
inductive PyError
  | attributeError
deriving DecidableEq, Repr

/-! ## Coordinate mapper (pdfReader.py lines 2089-2137)

`canvas_to_pdf` / `pdf_to_canvas` read the first canvas item tagged
pdf_image (its center coordinates and bounding box) and the attribute
`self._pdf_scale`.  The attribute is created only by `_show_single_page`
(line 1309, `self._pdf_scale = zoom`); it is not initialised in
`__init__` (lines 485-510), so before the first successful render the
attribute access raises AttributeError.  We therefore model the scale as
an `Option` and its access as a fallible lookup. -/

/-- A canvas image item as seen by the mapper: the coordinates of its
anchor (the image is anchored at its center) and, when Tk reports one,
its bounding box (x0, y0, x1, y1). -/
structure CanvasImageItem where
  centerX : ℚ
  centerY : ℚ
  bbox : Option (ℚ × ℚ × ℚ × ℚ)
deriving DecidableEq, Repr

/-- The state the coordinate mapper reads: the first pdf_image-tagged
canvas item, when present, and the `_pdf_scale` attribute, `none` while
the attribute does not exist yet. -/
structure MapperState where
  pdfImage : Option CanvasImageItem
  pdf_scale : Option ℚ
deriving DecidableEq, Repr

/-- Core arithmetic of `canvas_to_pdf` (lines 2091-2112) once the scale
attribute exists: subtract the displayed image's top-left corner, then
divide by the scale; without an image item or bounding box, just divide
by the scale. -/
def canvasToPdfCore (scale : ℚ) (img : Option CanvasImageItem) (x y : ℚ) : ℚ × ℚ :=
  match img with
  | some item =>
    match item.bbox with
    | some (bx0, by0, bx1, by1) =>
      let pdfWidth := bx1 - bx0
      let pdfHeight := by1 - by0
      let topLeftX := item.centerX - pdfWidth / 2
      let topLeftY := item.centerY - pdfHeight / 2
      ((x - topLeftX) / scale, (y - topLeftY) / scale)
    | none => (x / scale, y / scale)
  | none => (x / scale, y / scale)

/-- Core arithmetic of `pdf_to_canvas` (lines 2116-2137): multiply by
the scale, then add the displayed image's top-left corner when there is
a displayed image with a bounding box. -/
def pdfToCanvasCore (scale : ℚ) (img : Option CanvasImageItem) (x y : ℚ) : ℚ × ℚ :=
  match img with
  | some item =>
    match item.bbox with
    | some (bx0, by0, bx1, by1) =>
      let pdfWidth := bx1 - bx0
      let pdfHeight := by1 - by0
      let topLeftX := item.centerX - pdfWidth / 2
      let topLeftY := item.centerY - pdfHeight / 2
      (x * scale + topLeftX, y * scale + topLeftY)
    | none => (x * scale, y * scale)
  | none => (x * scale, y * scale)

/-- Definition of `canvas_to_pdf` (lines 2089-2112): every execution path
reads `self._pdf_scale`, so when the attribute does not exist the call
raises AttributeError; otherwise it is the pure core transform. -/
def canvas_to_pdf (s : MapperState) (x y : ℚ) : Except PyError (ℚ × ℚ) :=
  match s.pdf_scale with
  | none => .error .attributeError
  | some scale => .ok (canvasToPdfCore scale s.pdfImage x y)

/-- Definition of `pdf_to_canvas` (lines 2114-2137), same structure as
`canvas_to_pdf` with the inverse arithmetic. -/
def pdf_to_canvas (s : MapperState) (x y : ℚ) : Except PyError (ℚ × ℚ) :=
  match s.pdf_scale with
  | none => .error .attributeError
  | some scale => .ok (pdfToCanvasCore scale s.pdfImage x y)

/-- The mapper state right after `PDFReaderApp.__init__` (lines 485-510):
no canvas image has been created and `_pdf_scale` has never been
assigned. -/
def initMapperState : MapperState :=
  { pdfImage := none, pdf_scale := none }

/-! ## Annotation data model

PyMuPDF annotations as the engine reads them: a bounding rectangle
(`annot.rect`), a kind (`annot.type[0]`), and for ink annotations the
stroke paths (`annot.vertices`, a list of paths of points). -/

/-- A PDF rectangle with its two corner points, as in fitz.Rect. -/
structure Rect where
  x0 : ℚ
  y0 : ℚ
  x1 : ℚ
  y1 : ℚ
deriving DecidableEq, Repr

/-- Definition of fitz `Rect.contains` for a point: the point lies
between the corners in both coordinates. -/
def Rect.containsPt (r : Rect) (px py : ℚ) : Bool :=
  decide (r.x0 ≤ px) && decide (px ≤ r.x1) && decide (r.y0 ≤ py) && decide (py ≤ r.y1)

/-- Annotation kind: `annot.type[0]` restricted to the kinds the engine
treats specially; ink carries its stroke paths (`annot.vertices`). -/
inductive AnnotKind
  | ink (vertices : List (List (ℚ × ℚ)))
  | freetext
  | highlight
  | other
deriving DecidableEq, Repr

/-- An annotation of the current page, in enumeration order of
`page.annots()`. -/
structure Annot where
  rect : Rect
  kind : AnnotKind
deriving DecidableEq, Repr

/-- Consecutive pairs of a path: the segments the ink hit-test walks
(`for i in range(len(path) - 1)`). -/
def segmentsOf : List (ℚ × ℚ) → List ((ℚ × ℚ) × (ℚ × ℚ))
  | [] => []
  | [_] => []
  | a :: b :: rest => (a, b) :: segmentsOf (b :: rest)

/-- Definition of `_point_to_segment_dist` (lines 2347-2356), carried as
the squared distance: the source returns `hypot(px - proj_x, py - proj_y)`
and only ever compares it against a nonnegative tolerance, and squaring
both sides of such a comparison is an equivalence, so the embedding
avoids the irrational square root.  The projection parameter `t` is
clamped to [0, 1] exactly as in the source. -/
def point_to_segment_distSq (px py x0 y0 x1 y1 : ℚ) : ℚ :=
  let dx := x1 - x0
  let dy := y1 - y0
  if dx = 0 ∧ dy = 0 then
    (px - x0) ^ 2 + (py - y0) ^ 2
  else
    let t := max 0 (min 1 (((px - x0) * dx + (py - y0) * dy) / (dx * dx + dy * dy)))
    let projX := x0 + t * dx
    let projY := y0 + t * dy
    (px - projX) ^ 2 + (py - projY) ^ 2

/-- Definition of `_is_point_near_ink` (lines 2335-2345): for an ink
annotation, whether some segment of some stroke path lies within
`tol` of the point (squared comparison, see `point_to_segment_distSq`);
false for every other annotation kind. -/
def is_point_near_ink (a : Annot) (px py tol : ℚ) : Bool :=
  match a.kind with
  | .ink vertices =>
    vertices.any fun path =>
      (segmentsOf path).any fun sg =>
        decide (point_to_segment_distSq px py sg.1.1 sg.1.2 sg.2.1 sg.2.2 ≤ tol ^ 2)
  | _ => false

/-- Hit predicate of the erase loop body (lines 2288-2292): the point is
inside the annotation rectangle, or the annotation is ink and the point
is within tolerance 14 of one of its segments. -/
def eraseHit (a : Annot) (px py : ℚ) : Bool :=
  a.rect.containsPt px py || is_point_near_ink a px py 14

/-- Definition of the deletion loop of `_erase_annot` (lines 2286-2296):
walk the page annotations in enumeration order, delete the first one the
hit predicate accepts and stop; return the remaining annotations and the
`found` flag.  Per lines 2300-2304, `_save_pdf_safe` (the persistence
commit) runs exactly when the flag is true. -/
def erase_annot (annots : List Annot) (px py : ℚ) : List Annot × Bool :=
  match annots with
  | [] => ([], false)
  | a :: rest =>
    if eraseHit a px py then (rest, true)
    else
      let r := erase_annot rest px py
      (a :: r.1, r.2)

/-! ## Ink commit (`_end_draw`, pdfReader.py lines 2158-2193) -/

/-- Outcome of ending an ink gesture: the document-space point list of
the single ink annotation added, if any, and whether `_save_pdf_safe`
(the persistence commit) was invoked. -/
structure DrawCommit where
  added : Option (List (ℚ × ℚ))
  saved : Bool
deriving DecidableEq, Repr

/-- Definition of the commit logic of `_end_draw` (lines 2167-2186):
with at least 3 captured canvas points, every point is converted through
`canvas_to_pdf` at commit time, one ink annotation is added from the
converted points, and `_save_pdf_safe` is called; with fewer points the
gesture is discarded with no annotation and no save. -/
def end_draw (s : MapperState) (draw_points : List (ℚ × ℚ)) : Except PyError DrawCommit :=
  if 3 ≤ draw_points.length then do
    let pdf_points ← draw_points.mapM fun p => canvas_to_pdf s p.1 p.2
    pure { added := some pdf_points, saved := true }
  else
    pure { added := none, saved := false }

/-! ## Annotation overlay rendering (`_render_annotations`, lines 1911-2000)

Control flow of the source, read off the indentation: after the guards
(no document, canvas not ready) the method clears the items tagged
"annotation" and runs

  try:  load page, list its annotations
  except Exception:  return
    ... lines 1934-1995: the 50-annotation cap and the entire drawing
        loop (ink polylines, free text, highlight, border rectangles) ...
  except Exception:  pass

Lines 1934-1995 are indented inside the FIRST `except` suite after its
`return`, so they are unreachable, and the second `except` belongs to the
same `try`.  On the success path control falls through to line 2000 and
only the search highlights are rendered; no "annotation"-tagged item is
ever created. -/

/-- State `_render_annotations` reads: the loaded document with the
current page annotation list (`none` when no document is open or the
page fails to load), and the canvas size. -/
structure RenderAnnotState where
  pageAnnots : Option (List Annot)
  canvasW : ℚ
  canvasH : ℚ
deriving DecidableEq, Repr

/-- Definition of `_render_annotations` as the list of canvas items it
leaves with tag "annotation", abstracted to one entry per drawn item
keyed by the annotation index it came from: every path of the source
produces the empty list, because the drawing loop of lines 1938-1995 is
dead code inside the first except handler (see the section comment). -/
def render_annotations (s : RenderAnnotState) : List Nat :=
  match s.pageAnnots with
  | none => []
  | some _ =>
    if s.canvasW < 10 ∨ s.canvasH < 10 then []
    else []

/-- What the unreachable block of lines 1934-1995 would draw, modelled
for comparison with `render_annotations`: at most the first 50
annotations, at least one canvas item (the dashed border rectangle of
line 1991) per rendered annotation; drawn items are keyed by annotation
index. -/
def render_annotations_unreachable_block (s : RenderAnnotState) : List Nat :=
  match s.pageAnnots with
  | none => []
  | some annots =>
    if s.canvasW < 10 ∨ s.canvasH < 10 then []
    else List.range (min annots.length 50)

/-! ## Generation-stamped render jobs

`_render_thumbnails` (lines 1099-1131) increments `_thumb_render_id`,
captures the new value into the worker closure, and the worker hands
`(render_id, images)` back to `_apply_thumbnails` (lines 1133-1136),
which discards the batch unless the captured id still equals the live
counter.  `_show_continuous_scroll` / `_apply_continuous_render`
(lines 1394-1460) use the identical discipline with
`_continuous_render_id`. -/

/-- Thumbnail-side state: the live generation counter and the thumbnail
store last installed (batches abstracted as lists of page indices). -/
structure ThumbState where
  thumb_render_id : Nat
  thumbnails : Option (List Nat)
deriving DecidableEq, Repr

/-- Definition of the dispatch part of `_render_thumbnails`
(lines 1103-1104): increment the live counter, then capture the new
value as the render id of the batch job. -/
def render_thumbnails_dispatch (s : ThumbState) : ThumbState × Nat :=
  ({ s with thumb_render_id := s.thumb_render_id + 1 }, s.thumb_render_id + 1)

/-- Definition of `_apply_thumbnails` (lines 1133-1136): a batch whose
captured render id differs from the live counter is dropped with no
state change; otherwise the batch replaces the thumbnail store. -/
def apply_thumbnails (s : ThumbState) (render_id : Nat) (images : List Nat) : ThumbState :=
  if render_id ≠ s.thumb_render_id then s
  else { s with thumbnails := some images }

/-- Continuous-scroll-side state: the live generation counter and the
installed page images, page heights and zoom. -/
structure ContState where
  continuous_render_id : Nat
  images : List Nat
  page_heights : List Nat
  continuous_zoom : ℚ
deriving DecidableEq, Repr

/-- Definition of the dispatch part of `_show_continuous_scroll`
(lines 1395-1396): increment the live counter and capture the new value
for the batch job. -/
def continuous_render_dispatch (s : ContState) : ContState × Nat :=
  ({ s with continuous_render_id := s.continuous_render_id + 1 }, s.continuous_render_id + 1)

/-- Definition of `_apply_continuous_render` (lines 1429-1460) restricted
to its state effect: a stale render id returns immediately with no
change; a current one installs the images, the page heights and the zoom
actually used. -/
def apply_continuous_render (s : ContState) (render_id : Nat)
    (images page_heights : List Nat) (zoom : ℚ) : ContState :=
  if render_id ≠ s.continuous_render_id then s
  else { s with images := images, page_heights := page_heights, continuous_zoom := zoom }

/-! ## Persistence (`_save_pdf_safe`, lines 3433-3478) -/

/-- User-visible reports the save path can emit. -/
inductive Report
  | warnNoPdf
  | savedOk
  | saveError
deriving DecidableEq, Repr

/-- Environment of one commit: whether the incremental save
(`saveIncr`, line 3442) succeeds, and whether the full-save fallback
(temp-file save, file replace and reopen, lines 3456-3467) succeeds as a
whole. -/
structure SaveEnv where
  incrOk : Bool
  fullOk : Bool
deriving DecidableEq, Repr

/-- Document-side state `_save_pdf_safe` touches: the open document
handle (a generation number standing for its identity; `none` when no
document), its file path, and the view state. -/
structure PdfAppState where
  doc : Option Nat
  path : Option String
  page : Nat
  zoom : ℚ
deriving DecidableEq, Repr

/-- Result of one `_save_pdf_safe` call: the state after it, the boolean
it returns, the reports shown, and whether the full-save fallback was
attempted. -/
structure SaveResult where
  state : PdfAppState
  ok : Bool
  reports : List Report
  fullAttempted : Bool
deriving DecidableEq, Repr

/-- Definition of `_save_pdf_safe` (lines 3433-3478): bail out with a
warning when no document or no path; otherwise try the incremental save
and return success; only if it raises, save a full copy to a temporary
file, replace the original and reopen the document on the same path
(a fresh handle, view state untouched) and return success; if that also
raises, report one save error and return failure.  Success and error
dialogs are emitted only when `show_message` is set. -/
def save_pdf_safe (env : SaveEnv) (s : PdfAppState) (show_message : Bool) : SaveResult :=
  match s.doc, s.path with
  | some d, some _ =>
    if env.incrOk then
      { state := s, ok := true
        reports := if show_message then [.savedOk] else []
        fullAttempted := false }
    else if env.fullOk then
      { state := { s with doc := some (d + 1) }, ok := true
        reports := if show_message then [.savedOk] else []
        fullAttempted := true }
    else
      { state := s, ok := false
        reports := if show_message then [.saveError] else []
        fullAttempted := true }
  | _, _ =>
    { state := s, ok := false
      reports := if show_message then [.warnNoPdf] else []
      fullAttempted := false }

/-! ## Search (`_do_search` lines 2437-2468, `find_next` / `find_previous`
lines 2470-2494) -/

/-- One search hit: the page index and the text rectangle, as appended
into `_search_results`. -/
structure SearchHit where
  page : Nat
  rect : Rect
deriving DecidableEq, Repr

/-- The readable content of the document as the search loop sees it:
one entry per page in document order, `none` when loading or text
extraction of that page raises (a corrupted page), otherwise the list of
rectangles `page.search_for` returns for the query. -/
def SearchPages := List (Option (List Rect))

/-- The search loop of `_do_search` (lines 2447-2460) from a given start
page index: corrupted pages are skipped with `continue`, every hit of a
readable page is appended in page order. -/
def do_search_go (i : Nat) : List (Option (List Rect)) → List SearchHit
  | [] => []
  | none :: rest => do_search_go (i + 1) rest
  | some hits :: rest => hits.map (fun r => ⟨i, r⟩) ++ do_search_go (i + 1) rest

/-- Definition of `_do_search` (lines 2437-2468) restricted to the
result list it builds: the search loop started at page 0. -/
def do_search (pages : List (Option (List Rect))) : List SearchHit :=
  do_search_go 0 pages

/-- Specification-worded form of the search result, for comparison with
`do_search`: the hits of the readable pages, each tagged with its page
index, concatenated in document order. -/
def search_spec (pages : List (Option (List Rect))) : List SearchHit :=
  (pages.enum.map fun pr =>
    match pr.2 with
    | none => []
    | some hits => hits.map fun r => ⟨pr.1, r⟩).flatten

/-- Definition of the index update of `find_next` (lines 2476-2479),
for a nonempty result list of length `n`: a nonnegative cursor advances
by one modulo `n` (Python `%`, which Int.emod matches for a positive
modulus), the initial cursor -1 moves to the first result. -/
def find_next_index (n : Nat) (idx : Int) : Int :=
  if 0 ≤ idx then (idx + 1) % (n : Int) else 0

/-- Definition of the index update of `find_previous` (lines 2489-2492),
for a nonempty result list of length `n`: a nonnegative cursor retreats
by one modulo `n`, the initial cursor -1 moves to the last result. -/
def find_previous_index (n : Nat) (idx : Int) : Int :=
  if 0 ≤ idx then (idx - 1) % (n : Int) else (n : Int) - 1

/-! ## Session persistence (`_save_last_session` lines 3153-3171) and the
view-state mutators that do or do not call it -/

/-- The JSON record `_save_last_session` writes (the dict literal of
lines 3159-3166), with exactly its fields. -/
structure SessionData where
  file : String
  page : Nat
  zoom : ℚ
  rotation : Nat
  sidebar_visible : Bool
  timestamp : ℚ
deriving DecidableEq, Repr

/-- The JSON keys of the session record, in the order of the dict
literal at lines 3159-3166. -/
def session_json_keys : List String :=
  ["file", "page", "zoom", "rotation", "sidebar_visible", "timestamp"]

/-- Definition of `_save_last_session` (lines 3153-3171): build the
session record from the path and page passed in and the current zoom,
rotation and sidebar visibility, stamped with the current time. -/
def save_last_session (file_path : String) (page_num : Nat) (zoom : ℚ)
    (rotation : Nat) (sidebar_visible : Bool) (now : ℚ) : SessionData :=
  { file := file_path, page := page_num, zoom := zoom, rotation := rotation
    sidebar_visible := sidebar_visible, timestamp := now }

/-- View state of the app as the navigation / zoom / fit / view-mode
handlers mutate it, plus the log of session-file writes they perform.
`pdf_pages` is `none` when no document is open (or the document reports
zero pages, which Python truthiness treats the same). -/
structure ViewAppState where
  pdf_pages : Option Nat
  pdf_name : String
  current_page : Nat
  zoom : ℚ
  rotation : Nat
  fit_mode : String
  view_mode : String
  sidebar_visible : Bool
  session_writes : List SessionData
deriving DecidableEq, Repr

/-- Definition of `next_page` (lines 1492-1500): when a document is open
and not on the last page, advance one page and write the session file;
otherwise do nothing. -/
def next_page (now : ℚ) (s : ViewAppState) : ViewAppState :=
  match s.pdf_pages with
  | none => s
  | some n =>
    if s.current_page < n - 1 then
      { s with
        current_page := s.current_page + 1
        session_writes := s.session_writes ++
          [save_last_session s.pdf_name (s.current_page + 1) s.zoom s.rotation
            s.sidebar_visible now] }
    else s

/-- Definition of `go_to_page` (lines 1502-1508): when a document is
open and the target is in range, jump to it and write the session
file. -/
def go_to_page (now : ℚ) (page_num : Nat) (s : ViewAppState) : ViewAppState :=
  match s.pdf_pages with
  | none => s
  | some n =>
    if page_num < n then
      { s with
        current_page := page_num
        session_writes := s.session_writes ++
          [save_last_session s.pdf_name page_num s.zoom s.rotation
            s.sidebar_visible now] }
    else s

/-- Definition of `change_zoom` (lines 1558-1570): with a document open,
switch the fit mode to actual_size, multiply the zoom by the factor and
clamp it to [0.1, 10.0], and re-render; no session write occurs. -/
def change_zoom (factor : ℚ) (s : ViewAppState) : ViewAppState :=
  match s.pdf_pages with
  | none => s
  | some _ =>
    { s with
      fit_mode := "actual_size"
      zoom := max (1 / 10) (min (s.zoom * factor) 10) }

/-- Definition of `toggle_fit` (lines 1620-1632): flip the fit mode
between fit_page and actual_size and re-render; no session write
occurs. -/
def toggle_fit (s : ViewAppState) : ViewAppState :=
  if s.fit_mode = "fit_page" then { s with fit_mode := "actual_size" }
  else { s with fit_mode := "fit_page" }

/-- Definition of `_toggle_view_mode` (lines 1663-1669): flip the view
mode between single_page and continuous_scroll and re-render; no session
write occurs. -/
def toggle_view_mode (s : ViewAppState) : ViewAppState :=
  if s.view_mode = "single_page" then { s with view_mode := "continuous_scroll" }
  else { s with view_mode := "single_page" }

/-! ## Theorems -/

/-- Any `apply_thumbnails` call leaves the live counter unchanged. -/
theorem apply_thumbnails_render_id (s : ThumbState) (g : Nat) (imgs : List Nat) :
    (apply_thumbnails s g imgs).thumb_render_id = s.thumb_render_id := by
  unfold apply_thumbnails
  split <;> rfl

/-- Folding any batch of completions whose captured ids are all stale
leaves the thumbnail state untouched. -/
theorem foldl_apply_thumbnails_stale (s : ThumbState) (late : List (Nat × List Nat))
    (h : ∀ c ∈ late, c.1 ≠ s.thumb_render_id) :
    late.foldl (fun st c => apply_thumbnails st c.1 c.2) s = s := by
  induction late with
  | nil => rfl
  | cons c cs ih =>
    have hc : apply_thumbnails s c.1 c.2 = s := by
      unfold apply_thumbnails
      rw [if_pos (h c (List.mem_cons_self c cs))]
    rw [List.foldl_cons, hc]
    exact ih fun d hd => h d (List.mem_cons_of_mem c hd)

/-- C1: after a successful ink-add or erase, `_end_draw` / `_erase_annot`
call `_render_annotations` to redraw the overlay; the claim says the
redraw draws the current page annotations (one item per annotation, ink
as polylines, FreeText and Highlight as their own variants, the first 50
at most).  On the code it draws nothing: the whole drawing block
(lines 1934-1995) is unreachable, nested in the first except handler
after its `return`.  At a state with one ink annotation and a ready
canvas the overlay redraw yields no drawn item, while the unreachable
block would have drawn one. -/
theorem c1_render_annotations_draws_nothing :
    render_annotations
        ⟨some [⟨⟨10, 10, 30, 30⟩, .ink [[(10, 10), (20, 20), (30, 30)]]⟩], 800, 600⟩ = [] ∧
    render_annotations_unreachable_block
        ⟨some [⟨⟨10, 10, 30, 30⟩, .ink [[(10, 10), (20, 20), (30, 30)]]⟩], 800, 600⟩ = [0] := by
  constructor <;> rfl

/-- C2: a render batch (thumbnails or continuous scroll) captures the
generation counter at dispatch; at apply time a result is installed only
when the captured generation equals the live one, a stale result is
discarded with no effect on any state, and hence after a dispatch whose
result is applied, any number of stale completions leave the installed
batch in place: the settled state reflects the last-issued
generation. -/
theorem c2_generation_stamped_results :
    (∀ (s : ThumbState) (g : Nat) (imgs : List Nat),
      g ≠ s.thumb_render_id → apply_thumbnails s g imgs = s) ∧
    (∀ (s : ThumbState) (imgs : List Nat),
      apply_thumbnails (render_thumbnails_dispatch s).1 (render_thumbnails_dispatch s).2 imgs
        = { (render_thumbnails_dispatch s).1 with thumbnails := some imgs }) ∧
    (∀ (s : ThumbState) (imgs : List Nat) (late : List (Nat × List Nat)),
      (∀ c ∈ late, c.1 ≠ (render_thumbnails_dispatch s).2) →
      (late.foldl (fun st c => apply_thumbnails st c.1 c.2)
          (apply_thumbnails (render_thumbnails_dispatch s).1
            (render_thumbnails_dispatch s).2 imgs)).thumbnails = some imgs) ∧
    (∀ (s : ContState) (g : Nat) (imgs hts : List Nat) (z : ℚ),
      g ≠ s.continuous_render_id → apply_continuous_render s g imgs hts z = s) ∧
    (∀ (s : ContState) (imgs hts : List Nat) (z : ℚ),
      apply_continuous_render (continuous_render_dispatch s).1
          (continuous_render_dispatch s).2 imgs hts z
        = { (continuous_render_dispatch s).1 with
              images := imgs, page_heights := hts, continuous_zoom := z }) := by
  refine ⟨?_, ?_, ?_, ?_, ?_⟩
  · intro s g imgs hg
    unfold apply_thumbnails
    rw [if_pos hg]
  · intro s imgs
    unfold apply_thumbnails render_thumbnails_dispatch
    simp
  · intro s imgs late hlate
    have happlied :
        apply_thumbnails (render_thumbnails_dispatch s).1
            (render_thumbnails_dispatch s).2 imgs
          = { (render_thumbnails_dispatch s).1 with thumbnails := some imgs } := by
      unfold apply_thumbnails render_thumbnails_dispatch
      simp
    rw [happlied]
    rw [foldl_apply_thumbnails_stale _ _ (by intro c hc; exact hlate c hc)]
  · intro s g imgs hts z hg
    unfold apply_continuous_render
    rw [if_pos hg]
  · intro s imgs hts z
    unfold apply_continuous_render continuous_render_dispatch
    simp

/-- Witness for C2: with live counter 0, dispatch captures generation 1;
its batch is installed; a straggler completion stamped with the old
generation 0 is then discarded, leaving the installed batch. -/
theorem c2_witness :
    (([((0 : Nat), [(7 : Nat)])]).foldl (fun st c => apply_thumbnails st c.1 c.2)
        (apply_thumbnails (render_thumbnails_dispatch ⟨0, none⟩).1
          (render_thumbnails_dispatch ⟨0, none⟩).2 [3])).thumbnails = some [3] :=
  c2_generation_stamped_results.2.2.1 ⟨0, none⟩ [3] [(0, [7])] (by decide)

/-- C3: for a fixed displayed render (a pdf_image canvas item with a
bounding box and a set, nonzero scale), `pdf_to_canvas` inverts
`canvas_to_pdf` exactly on every canvas point inside the image bounds:
the rational-arithmetic embedding round-trips with no error at all,
hence in particular within floating-point tolerance. -/
theorem c3_mapper_roundtrip (s : MapperState) (scale : ℚ) (item : CanvasImageItem)
    (bx0 by0 bx1 by1 x y px py : ℚ)
    (hscale : s.pdf_scale = some scale) (hs0 : scale ≠ 0)
    (himg : s.pdfImage = some item)
    (hbb : item.bbox = some (bx0, by0, bx1, by1))
    (hx0 : bx0 ≤ x) (hx1 : x ≤ bx1) (hy0 : by0 ≤ y) (hy1 : y ≤ by1)
    (hconv : canvas_to_pdf s x y = .ok (px, py)) :
    pdf_to_canvas s px py = .ok (x, y) := by
  simp only [canvas_to_pdf, canvasToPdfCore, hscale, himg, hbb,
    Except.ok.injEq, Prod.mk.injEq] at hconv
  obtain ⟨hpx, hpy⟩ := hconv
  simp only [pdf_to_canvas, pdfToCanvasCore, hscale, himg, hbb,
    Except.ok.injEq, Prod.mk.injEq]
  constructor
  · rw [← hpx]; field_simp; ring
  · rw [← hpy]; field_simp; ring

/-- Witness for C3: a render displayed at scale 2, image centered at
(100, 50) with bounding box (60, 10, 140, 90); the canvas point (70, 20)
maps to the document point (5, 5) and back to (70, 20). -/
theorem c3_witness :
    pdf_to_canvas ⟨some ⟨100, 50, some (60, 10, 140, 90)⟩, some 2⟩ 5 5 = .ok (70, 20) :=
  c3_mapper_roundtrip ⟨some ⟨100, 50, some (60, 10, 140, 90)⟩, some 2⟩ 2
    ⟨100, 50, some (60, 10, 140, 90)⟩ 60 10 140 90 70 20 5 5
    rfl (by norm_num) rfl rfl (by norm_num) (by norm_num) (by norm_num) (by norm_num)
    (by norm_num [canvas_to_pdf, canvasToPdfCore])

/-- C4 counterexample: in the state left by `PDFReaderApp.__init__`
(no page ever rendered, `_pdf_scale` never assigned), `canvas_to_pdf`
and `pdf_to_canvas` at the concrete point (3, 4) raise AttributeError
instead of returning the point unchanged. -/
theorem c4_counterexample :
    canvas_to_pdf initMapperState 3 4 = .error .attributeError ∧
    pdf_to_canvas initMapperState 3 4 = .error .attributeError ∧
    canvas_to_pdf initMapperState 3 4 ≠ .ok (3, 4) ∧
    pdf_to_canvas initMapperState 3 4 ≠ .ok (3, 4) := by
  refine ⟨rfl, rfl, ?_, ?_⟩ <;>
    · intro h
      simp only [canvas_to_pdf, pdf_to_canvas, initMapperState, reduceCtorEq] at h

/-- C4 (amended): before any page has been rendered the `_pdf_scale`
attribute does not exist, and every call to `canvas_to_pdf` or
`pdf_to_canvas` raises AttributeError; there is no identity-transform
fallback. -/
theorem c4_no_render_raises (s : MapperState) (x y : ℚ) (h : s.pdf_scale = none) :
    canvas_to_pdf s x y = .error .attributeError ∧
    pdf_to_canvas s x y = .error .attributeError := by
  rw [canvas_to_pdf, pdf_to_canvas, h]
  exact ⟨rfl, rfl⟩

/-- Witness for C4 (amended): the fresh initial state at point (3, 4). -/
theorem c4_witness :
    canvas_to_pdf initMapperState 3 4 = .error .attributeError ∧
    pdf_to_canvas initMapperState 3 4 = .error .attributeError :=
  c4_no_render_raises initMapperState 3 4 rfl

/-- C5: with a document open, `_save_pdf_safe` first attempts the
incremental save; the full-save fallback (temp file, file replacement,
reopen) runs exactly when the incremental save raises; a successful
fallback reopens the handle on the same path with page and zoom
unchanged; the call returns success when either path succeeds; and a
user-visible save-error report is emitted at most once, only when both
paths fail (exactly once then, when messages are on). -/
theorem c5_save_fallback (env : SaveEnv) (s : PdfAppState) (d : Nat) (p : String) (m : Bool)
    (hd : s.doc = some d) (hp : s.path = some p) :
    ((save_pdf_safe env s m).ok = (env.incrOk || env.fullOk)) ∧
    ((save_pdf_safe env s m).fullAttempted = !env.incrOk) ∧
    (env.incrOk = true → (save_pdf_safe env s m).state = s) ∧
    (env.incrOk = false → env.fullOk = true →
      (save_pdf_safe env s m).state.doc = some (d + 1) ∧
      (save_pdf_safe env s m).state.path = s.path ∧
      (save_pdf_safe env s m).state.page = s.page ∧
      (save_pdf_safe env s m).state.zoom = s.zoom) ∧
    (Report.saveError ∈ (save_pdf_safe env s m).reports →
      env.incrOk = false ∧ env.fullOk = false) ∧
    ((save_pdf_safe env s m).reports.count Report.saveError ≤ 1) ∧
    (m = true → env.incrOk = false → env.fullOk = false →
      (save_pdf_safe env s m).reports = [Report.saveError]) := by
  obtain ⟨i, f⟩ := env
  cases i <;> cases f <;> cases m <;>
    simp [save_pdf_safe, hd, hp]

/-- Witness for C5: a document open on path "a.pdf" whose incremental
save raises but whose full save succeeds; the call returns success, the
fallback ran, and the handle was reopened with page and zoom intact. -/
theorem c5_witness :
    ((save_pdf_safe ⟨false, true⟩ ⟨some 0, some "a.pdf", 3, 2⟩ true).ok = (false || true)) ∧
    ((save_pdf_safe ⟨false, true⟩ ⟨some 0, some "a.pdf", 3, 2⟩ true).fullAttempted = !false) :=
  ⟨(c5_save_fallback ⟨false, true⟩ ⟨some 0, some "a.pdf", 3, 2⟩ 0 "a.pdf" true rfl rfl).1,
   (c5_save_fallback ⟨false, true⟩ ⟨some 0, some "a.pdf", 3, 2⟩ 0 "a.pdf" true rfl rfl).2.1⟩

/-- A point lying on the segment (any convex combination of its
endpoints) has squared point-to-segment distance zero: the clamped
projection parameter recovers the combination exactly. -/
theorem point_to_segment_distSq_on_segment (x0 y0 x1 y1 t : ℚ)
    (h0 : 0 ≤ t) (h1 : t ≤ 1) :
    point_to_segment_distSq (x0 + t * (x1 - x0)) (y0 + t * (y1 - y0)) x0 y0 x1 y1 = 0 := by
  rw [point_to_segment_distSq]
  by_cases h : x1 - x0 = 0 ∧ y1 - y0 = 0
  · rw [if_pos h]
    rw [h.1, h.2]
    ring
  · rw [if_neg h]
    have hden : (x1 - x0) * (x1 - x0) + (y1 - y0) * (y1 - y0) ≠ 0 := by
      rcases not_and_or.mp h with hx | hy
      · have : 0 < (x1 - x0) * (x1 - x0) + (y1 - y0) * (y1 - y0) := by
          have := mul_self_pos.mpr hx
          nlinarith [mul_self_nonneg (y1 - y0)]
        exact ne_of_gt this
      · have : 0 < (x1 - x0) * (x1 - x0) + (y1 - y0) * (y1 - y0) := by
          have := mul_self_pos.mpr hy
          nlinarith [mul_self_nonneg (x1 - x0)]
        exact ne_of_gt this
    have hquot :
        ((x0 + t * (x1 - x0) - x0) * (x1 - x0) + (y0 + t * (y1 - y0) - y0) * (y1 - y0)) /
            ((x1 - x0) * (x1 - x0) + (y1 - y0) * (y1 - y0)) = t := by
      rw [show (x0 + t * (x1 - x0) - x0) * (x1 - x0) + (y0 + t * (y1 - y0) - y0) * (y1 - y0)
            = t * ((x1 - x0) * (x1 - x0) + (y1 - y0) * (y1 - y0)) by ring]
      exact mul_div_cancel_right₀ t hden
    rw [hquot, min_eq_right h1, max_eq_right h0]
    ring

/-- C6: the erase hit-test converts the click to document space and
removes exactly the first annotation, in page enumeration order, that
either contains the point in its bounding rectangle or is an ink
annotation with a stroke segment within tolerance 14 of the point
(point-to-segment projection clamped to [0, 1]); a point exactly on a
segment is always a hit; when nothing matches, the annotation list is
unchanged and the found flag that gates the persistence commit is
false. -/
theorem c6_erase_first_match (annots : List Annot) (px py : ℚ) :
    ((∀ a ∈ annots, eraseHit a px py = false) →
      erase_annot annots px py = (annots, false)) ∧
    (∀ (pre post : List Annot) (a : Annot),
      annots = pre ++ a :: post →
      (∀ b ∈ pre, eraseHit b px py = false) →
      eraseHit a px py = true →
      erase_annot annots px py = (pre ++ post, true)) ∧
    (∀ (r : Rect) (strokes : List (List (ℚ × ℚ))) (path : List (ℚ × ℚ))
      (sg : (ℚ × ℚ) × (ℚ × ℚ)) (t : ℚ),
      path ∈ strokes → sg ∈ segmentsOf path →
      0 ≤ t → t ≤ 1 →
      px = sg.1.1 + t * (sg.2.1 - sg.1.1) →
      py = sg.1.2 + t * (sg.2.2 - sg.1.2) →
      is_point_near_ink ⟨r, .ink strokes⟩ px py 14 = true) := by
  refine ⟨?_, ?_, ?_⟩
  · intro hmiss
    induction annots with
    | nil => rfl
    | cons a rest ih =>
      rw [erase_annot]
      rw [if_neg (by simp [hmiss a (List.mem_cons_self a rest)])]
      rw [ih fun b hb => hmiss b (List.mem_cons_of_mem a hb)]
  · intro pre post a hsplit hmiss hhit
    subst hsplit
    induction pre with
    | nil =>
      rw [List.nil_append, erase_annot, if_pos hhit, List.nil_append]
    | cons b pre ih =>
      rw [List.cons_append, erase_annot]
      rw [if_neg (by simp [hmiss b (List.mem_cons_self b pre)])]
      rw [ih fun c hc => hmiss c (List.mem_cons_of_mem b hc)]
      rfl
  · intro r strokes path sg t hpath hsg h0 h1 hpx hpy
    rw [is_point_near_ink]
    rw [List.any_eq_true]
    refine ⟨path, hpath, ?_⟩
    rw [List.any_eq_true]
    refine ⟨sg, hsg, ?_⟩
    rw [decide_eq_true_eq, hpx, hpy,
      point_to_segment_distSq_on_segment sg.1.1 sg.1.2 sg.2.1 sg.2.2 t h0 h1]
    norm_num

/-- Witness for C6: the point (5, 5) misses the first annotation and
lands in the rectangle of the second, so the second is the one removed
and the found flag is set; the point (1, 1) lies exactly at the midpoint
of the single stroke segment of a degenerate-rectangle ink annotation
and is reported as a hit. -/
theorem c6_witness :
    erase_annot [⟨⟨0, 0, 1, 1⟩, .other⟩, ⟨⟨5, 5, 6, 6⟩, .other⟩] 5 5
      = ([⟨⟨0, 0, 1, 1⟩, .other⟩] ++ [], true) ∧
    is_point_near_ink ⟨⟨0, 0, 0, 0⟩, .ink [[(0, 0), (2, 2)]]⟩ 1 1 14 = true :=
  ⟨(c6_erase_first_match [⟨⟨0, 0, 1, 1⟩, .other⟩, ⟨⟨5, 5, 6, 6⟩, .other⟩] 5 5).2.1
      [⟨⟨0, 0, 1, 1⟩, .other⟩] [] ⟨⟨5, 5, 6, 6⟩, .other⟩ rfl
      (by
        intro b hb
        rw [List.mem_singleton] at hb
        subst hb
        norm_num [eraseHit, Rect.containsPt, is_point_near_ink])
      (by norm_num [eraseHit, Rect.containsPt]),
   (c6_erase_first_match [] 1 1).2.2 ⟨0, 0, 0, 0⟩ [[(0, 0), (2, 2)]] [(0, 0), (2, 2)]
      ((0, 0), (2, 2)) (1 / 2) (List.mem_singleton.mpr rfl)
      (List.mem_singleton.mpr rfl) (by norm_num) (by norm_num)
      (by norm_num) (by norm_num)⟩

/-- Converting a list of canvas points through `canvas_to_pdf` succeeds
pointwise once the scale attribute exists. -/
theorem canvas_to_pdf_mapM (s : MapperState) (sc : ℚ) (h : s.pdf_scale = some sc)
    (pts : List (ℚ × ℚ)) :
    pts.mapM (fun q => canvas_to_pdf s q.1 q.2)
      = Except.ok (pts.map fun q => canvasToPdfCore sc s.pdfImage q.1 q.2) := by
  induction pts with
  | nil => rfl
  | cons q rest ih =>
    rw [List.mapM_cons, List.map_cons]
    rw [canvas_to_pdf, h, ih]
    rfl

/-- C7: ending an ink gesture with fewer than 3 captured points creates
no annotation and makes no persistence call; with 3 or more points it
adds exactly one ink annotation whose points are the captured canvas
points converted through the coordinate mapper at commit time, and then
calls the persistence commit. -/
theorem c7_end_draw_commit (s : MapperState) (sc : ℚ) (pts : List (ℚ × ℚ))
    (hsc : s.pdf_scale = some sc) :
    (pts.length < 3 → end_draw s pts = .ok { added := none, saved := false }) ∧
    (3 ≤ pts.length →
      end_draw s pts
        = .ok { added := some (pts.map fun q => canvasToPdfCore sc s.pdfImage q.1 q.2),
                saved := true }) := by
  constructor
  · intro hlt
    rw [end_draw, if_neg (by omega)]
    rfl
  · intro hge
    rw [end_draw, if_pos hge, canvas_to_pdf_mapM s sc hsc pts]
    rfl

/-- Witness for C7: at scale 1 with no displayed image offset, a
two-point gesture commits nothing, while a three-point gesture commits
one ink annotation with the three converted points and triggers the
save. -/
theorem c7_witness :
    end_draw ⟨none, some 1⟩ [(1, 1), (2, 2)] = .ok { added := none, saved := false } ∧
    end_draw ⟨none, some 1⟩ [(1, 1), (2, 2), (3, 3)]
      = .ok { added := some [(1, 1), (2, 2), (3, 3)], saved := true } :=
  ⟨(c7_end_draw_commit ⟨none, some 1⟩ 1 [(1, 1), (2, 2)] rfl).1 (by norm_num),
   by
    have h := (c7_end_draw_commit ⟨none, some 1⟩ 1 [(1, 1), (2, 2), (3, 3)] rfl).2
      (by norm_num)
    rw [h]
    norm_num [canvasToPdfCore]⟩

/-- Every hit produced by the search loop started at page `i` carries a
page index at least `i`. -/
theorem do_search_go_page_ge (pages : List (Option (List Rect))) :
    ∀ (i : Nat), ∀ r ∈ do_search_go i pages, i ≤ r.page := by
  induction pages with
  | nil => intro i r hr; simp [do_search_go] at hr
  | cons p rest ih =>
    intro i r hr
    cases p with
    | none =>
      rw [do_search_go] at hr
      exact Nat.le_of_succ_le (ih (i + 1) r hr)
    | some hits =>
      rw [do_search_go] at hr
      rcases List.mem_append.mp hr with hl | hg
      · obtain ⟨x, _, rfl⟩ := List.mem_map.mp hl
        exact le_refl i
      · exact Nat.le_of_succ_le (ih (i + 1) r hg)

/-- The search loop agrees with the enumerate-readable-pages form at
every start index. -/
theorem do_search_go_enumFrom (pages : List (Option (List Rect))) :
    ∀ (i : Nat),
      do_search_go i pages
        = ((pages.enumFrom i).map fun pr =>
            match pr.2 with
            | none => ([] : List SearchHit)
            | some hits => hits.map fun r => ⟨pr.1, r⟩).flatten := by
  induction pages with
  | nil => intro i; rfl
  | cons p rest ih =>
    intro i
    cases p with
    | none => simpa [do_search_go, List.enumFrom] using ih (i + 1)
    | some hits => simpa [do_search_go, List.enumFrom] using ih (i + 1)

/-- The search loop output is sorted by nondecreasing page index. -/
theorem do_search_go_sorted (pages : List (Option (List Rect))) :
    ∀ (i : Nat),
      (do_search_go i pages).Pairwise fun a b => a.page ≤ b.page := by
  induction pages with
  | nil => intro i; simp [do_search_go]
  | cons p rest ih =>
    intro i
    cases p with
    | none =>
      rw [do_search_go]
      exact ih (i + 1)
    | some hits =>
      rw [do_search_go]
      refine List.pairwise_append.mpr ⟨?_, ih (i + 1), ?_⟩
      · refine List.pairwise_map.mpr ?_
        induction hits with
        | nil => exact List.Pairwise.nil
        | cons x xs ihx =>
          exact List.Pairwise.cons (fun y _ => le_refl i) ihx
      · intro a ha b hb
        obtain ⟨x, _, rfl⟩ := List.mem_map.mp ha
        exact Nat.le_of_succ_le (do_search_go_page_ge rest (i + 1) b hb)

/-- C8: `_do_search` scans every page in ascending document order,
skips pages whose load or text extraction raises, and appends one result
per hit of every readable page; its output equals the
specification-worded enumeration of the readable-page hits and is
ordered by nondecreasing page index. -/
theorem c8_search_scan (pages : List (Option (List Rect))) :
    do_search pages = search_spec pages ∧
    (do_search pages).Pairwise fun a b => a.page ≤ b.page :=
  ⟨do_search_go_enumFrom pages 0, do_search_go_sorted pages 0⟩

/-- C9: search-result navigation is circular: a nonnegative cursor
advances (retreats) by one modulo the result count, next and previous
are mutually inverse on in-range cursors, and with 3 results, calling
next 4 times from the start (the initial cursor value -1 set by
`_do_search` before any navigation) lands back on the first result,
index 0. -/
theorem c9_circular_navigation (n : Nat) (idx : Int) :
    (0 < n → 0 ≤ idx →
      find_next_index n idx = (idx + 1) % (n : Int) ∧
      find_previous_index n idx = (idx - 1) % (n : Int)) ∧
    (0 < n → 0 ≤ idx → idx < (n : Int) →
      find_previous_index n (find_next_index n idx) = idx ∧
      find_next_index n (find_previous_index n idx) = idx) ∧
    find_next_index 3 (find_next_index 3 (find_next_index 3 (find_next_index 3 (-1)))) = 0 := by
  have hev :
      find_next_index 3 (find_next_index 3 (find_next_index 3 (find_next_index 3 (-1)))) = 0 := by
    decide
  refine ⟨?_, ?_, hev⟩
  · intro _ h0
    rw [find_next_index, find_previous_index, if_pos h0, if_pos h0]
    exact ⟨rfl, rfl⟩
  · intro hn h0 hlt
    have hnz : (n : Int) ≠ 0 := by
      simp only [ne_eq, Int.natCast_eq_zero]
      omega
    constructor
    · rw [find_next_index, if_pos h0]
      have hj : (0 : Int) ≤ (idx + 1) % (n : Int) := Int.emod_nonneg _ hnz
      rw [find_previous_index, if_pos hj]
      rw [Int.sub_emod ((idx + 1) % (n : Int)) 1 (n : Int),
        Int.emod_emod_of_dvd (idx + 1) dvd_rfl, ← Int.sub_emod]
      rw [show idx + 1 - 1 = idx by ring]
      exact Int.emod_eq_of_lt h0 hlt
    · rw [find_previous_index, if_pos h0]
      have hj : (0 : Int) ≤ (idx - 1) % (n : Int) := Int.emod_nonneg _ hnz
      rw [find_next_index, if_pos hj]
      rw [Int.add_emod ((idx - 1) % (n : Int)) 1 (n : Int),
        Int.emod_emod_of_dvd (idx - 1) dvd_rfl, ← Int.add_emod]
      rw [show idx - 1 + 1 = idx by ring]
      exact Int.emod_eq_of_lt h0 hlt

/-- Witness for C9: with 3 results and the cursor on the second result,
next then previous (and previous then next) return to it. -/
theorem c9_witness :
    find_previous_index 3 (find_next_index 3 1) = 1 ∧
    find_next_index 3 (find_previous_index 3 1) = 1 :=
  (c9_circular_navigation 3 1).2.1 (by norm_num) (by norm_num) (by norm_num)

/-- C10 counterexample: the record `_save_last_session` writes carries
no fit_mode and no view_mode key, and a zoom change on a loaded
document writes no session record at all, refuting both halves of the
claim at a concrete input. -/
theorem c10_counterexample :
    ("fit_mode" ∉ session_json_keys ∧ "view_mode" ∉ session_json_keys) ∧
    (change_zoom 2
      ⟨some 5, "doc.pdf", 0, 1, 0, "fit_page", "single_page", true, []⟩).session_writes
      = [] := by
  refine ⟨⟨?_, ?_⟩, ?_⟩
  · decide
  · decide
  · rfl

/-- C10 (amended): every session-file write produces a record with
exactly the fields file, page, zoom, rotation, sidebar_visible and
timestamp (no fit_mode or view_mode); such a write occurs after every
successful page navigation (`next_page`, `go_to_page`), while zoom,
fit-mode and view-mode changes write no session record. -/
theorem c10_session_writes (s : ViewAppState) (n : Nat) (now : ℚ) (pg : Nat)
    (hdoc : s.pdf_pages = some n) :
    (session_json_keys
      = ["file", "page", "zoom", "rotation", "sidebar_visible", "timestamp"]) ∧
    (s.current_page < n - 1 →
      (next_page now s).session_writes = s.session_writes ++
        [save_last_session s.pdf_name (s.current_page + 1) s.zoom s.rotation
          s.sidebar_visible now]) ∧
    (pg < n →
      (go_to_page now pg s).session_writes = s.session_writes ++
        [save_last_session s.pdf_name pg s.zoom s.rotation s.sidebar_visible now]) ∧
    (∀ factor : ℚ, (change_zoom factor s).session_writes = s.session_writes) ∧
    ((toggle_fit s).session_writes = s.session_writes) ∧
    ((toggle_view_mode s).session_writes = s.session_writes) := by
  refine ⟨rfl, ?_, ?_, ?_, ?_, ?_⟩
  · intro h
    simp [next_page, hdoc, h]
  · intro h
    simp [go_to_page, hdoc, h]
  · intro factor
    simp [change_zoom, hdoc]
  · rw [toggle_fit]
    split <;> rfl
  · rw [toggle_view_mode]
    split <;> rfl

/-- Witness for C10 (amended): on a five-page document open at page 1,
advancing a page appends exactly one session record, while a zoom
change appends none. -/
theorem c10_witness :
    (next_page 0
        ⟨some 5, "a.pdf", 1, 1, 0, "fit_page", "single_page", true, []⟩).session_writes
      = [] ++ [save_last_session "a.pdf" 2 1 0 true 0] ∧
    (change_zoom 3
        ⟨some 5, "a.pdf", 1, 1, 0, "fit_page", "single_page", true, []⟩).session_writes
      = [] :=
  ⟨(c10_session_writes ⟨some 5, "a.pdf", 1, 1, 0, "fit_page", "single_page", true, []⟩
      5 0 3 rfl).2.1 (by norm_num),
   (c10_session_writes ⟨some 5, "a.pdf", 1, 1, 0, "fit_page", "single_page", true, []⟩
      5 0 3 rfl).2.2.2.1 3⟩

end PdfReader
